import Mathlib

/-!
Shallow embedding of the checkout/verification reconciliation workflow of the
AlexObbs/shopp payment servers (src/server.js and the unnamed variants).
HTTP handlers become pure Lean functions from a request value (and an abstract
view of the Stripe client / Firestore guide collection) to an outcome value
paired with the list of persistence and notification side effects the handler
performs.  Machine floats are modelled by `ℚ`; JS `undefined`/`null`/string
distinctions that the claims depend on are modelled explicitly.
-/

namespace Shopp

/-- JS truthiness of an optional string (`undefined` and `""` are falsy). -/
def jsTruthy : Option String → Bool
  | some s => s != ""
  | none => false

/-- JS truthiness of an optional number (`undefined`, `null` and `0` are falsy). -/
def jsTruthyQ : Option ℚ → Bool
  | some q => q != 0
  | none => false

/-- JS `a || d` for an optional string `a` and a string default `d`. -/
def jsOrD (a : Option String) (d : String) : String :=
  if jsTruthy a then a.getD "" else d

/-- JS `a || b` over optional strings, returning `b` as-is when `a` is falsy. -/
def jsOrS (a b : Option String) : Option String :=
  if jsTruthy a then a else b

/-- `String.prototype.toLowerCase` restricted to ASCII, which is all the
currency codes and guide names in play use. -/
def toLowerStr (s : String) : String :=
  String.mk (s.data.map Char.toLower)

/-- JS `Math.round` on a rational: round half toward positive infinity,
which is `⌊x + 1/2⌋`. -/
def jsRound (q : ℚ) : ℤ :=
  ⌊q + 1 / 2⌋

/-- Accumulate a digit list into a natural number. -/
def digitsVal (l : List Char) : ℕ :=
  l.foldl (fun a c => a * 10 + (c.toNat - 48)) 0

/-- JS numeric coercion (`Number(s)`, as used by `s * 100`) for plain decimal
strings: the whole string must be a signed decimal numeral; `""` coerces to 0;
anything else is NaN, modelled as `none`.  Exponents and hex forms never occur
in this code base and are mapped to NaN. -/
def jsToNumber (s : String) : Option ℚ :=
  let cs := s.toList
  if cs.isEmpty then some 0
  else
    let (neg, cs1) : Bool × List Char :=
      match cs with
      | '-' :: rest => (true, rest)
      | '+' :: rest => (false, rest)
      | _ => (false, cs)
    let ip := cs1.takeWhile Char.isDigit
    let rest := cs1.dropWhile Char.isDigit
    match rest with
    | [] =>
      if ip.isEmpty then none
      else some (if neg then -(digitsVal ip : ℚ) else (digitsVal ip : ℚ))
    | '.' :: r =>
      if r.all Char.isDigit && !(ip.isEmpty && r.isEmpty) then
        let v : ℚ := (digitsVal ip : ℚ) + (digitsVal r : ℚ) / ((10 : ℚ) ^ r.length)
        some (if neg then -v else v)
      else none
    | _ => none

/-- JS `parseFloat` for the metadata strings this server writes: parse the
longest decimal-numeral prefix; NaN (no parsable prefix) is `none`. -/
def parseFloatQ (s : String) : Option ℚ :=
  let cs := s.toList
  let (neg, cs1) : Bool × List Char :=
    match cs with
    | '-' :: rest => (true, rest)
    | '+' :: rest => (false, rest)
    | _ => (false, cs)
  let ip := cs1.takeWhile Char.isDigit
  let rest := cs1.dropWhile Char.isDigit
  match rest with
  | '.' :: r =>
    let fp := r.takeWhile Char.isDigit
    if ip.isEmpty && fp.isEmpty then none
    else
      let v : ℚ := (digitsVal ip : ℚ) + (digitsVal fp : ℚ) / ((10 : ℚ) ^ fp.length)
      some (if neg then -v else v)
  | _ =>
    if ip.isEmpty then none
    else some (if neg then -(digitsVal ip : ℚ) else (digitsVal ip : ℚ))

/-- The `amount` field of a booking request body: the clients send either a
JSON number or a string (the free-booking check compares against both the
number `0` and the string `"0"`). -/
inductive AmountVal where
  | num (q : ℚ)
  | str (s : String)
deriving DecidableEq, Repr

/-- Numeric coercion of an `amount` value, as triggered by `amount * 100`. -/
def amountToNumber : AmountVal → Option ℚ
  | .num q => some q
  | .str s => jsToNumber s

/-- Request body of POST /create-checkout-session (booking variant). -/
structure BookingRequest where
  packageId : Option String := none
  userId : Option String := none
  originalAmount : Option ℚ := none
  amount : Option AmountVal := none
  packageName : Option String := none
  couponCode : Option String := none
  discountAmount : Option ℚ := none
deriving Repr

/-- The cosmetic product description line, kept structurally: either the
coupon line (which interpolates `originalAmount.toFixed(2)` and
`discountAmount.toFixed(2)`) or the fixed default text. -/
inductive ProductDescription where
  | withCoupon (originalAmount discountAmount : ℚ)
  | defaultDescr
deriving DecidableEq, Repr

/-- The parameters of the outbound `stripe.checkout.sessions.create` call made
by the booking handler in src/server.js.  `unit_amount = none` models the NaN
that a non-numeric string amount would produce.  Metadata values are stored
as the values whose `toString` rendering the code writes. -/
structure BookingSessionCall where
  currency : String
  productName : String
  productDescription : ProductDescription
  unit_amount : Option ℤ
  metaOriginalAmount : AmountVal
  metaDiscountAmount : ℚ
  metaCouponCode : String
  metaHasCoupon : Bool
deriving DecidableEq, Repr

/-- Outcome of the booking create-checkout-session handler.  `toFixedCrash`
models the TypeError thrown by `originalAmount.toFixed(2)` on an absent
`originalAmount`, which the surrounding try/catch converts into a 500. -/
inductive BookingOutcome where
  | missingUserId
  | missingAmount
  | freeBooking
  | toFixedCrash
  | created (call : BookingSessionCall)
deriving DecidableEq, Repr

/-- POST /create-checkout-session (src/server.js lines 74-168; the unnamed
variants part_000 lines 251-344 and part_001 lines 24-117 are identical in
the modelled logic). -/
def createCheckoutSession (r : BookingRequest) : BookingOutcome :=
  if !(jsTruthy r.userId) then .missingUserId
  else
    match r.amount with
    | none => .missingAmount
    | some a =>
      if a = .num 0 ∨ a = .str "0" then .freeBooking
      else
        let productName :=
          if jsTruthy r.couponCode then
            jsOrD r.packageName "Kenya Safari Package" ++ " (Coupon: "
              ++ r.couponCode.getD "" ++ ")"
          else jsOrD r.packageName "Kenya Safari Package"
        if jsTruthy r.couponCode && jsTruthyQ r.discountAmount then
          match r.originalAmount with
          | none => .toFixedCrash
          | some oq =>
            .created {
              currency := "gbp"
              productName := productName
              productDescription := .withCoupon oq (r.discountAmount.getD 0)
              unit_amount := (amountToNumber a).map (fun q => jsRound (100 * q))
              metaOriginalAmount :=
                if jsTruthyQ r.originalAmount then .num oq else a
              metaDiscountAmount :=
                if jsTruthyQ r.discountAmount then r.discountAmount.getD 0 else 0
              metaCouponCode := jsOrD r.couponCode "none"
              metaHasCoupon := jsTruthy r.couponCode }
        else
          .created {
            currency := "gbp"
            productName := productName
            productDescription := .defaultDescr
            unit_amount := (amountToNumber a).map (fun q => jsRound (100 * q))
            metaOriginalAmount :=
              if jsTruthyQ r.originalAmount then .num (r.originalAmount.getD 0) else a
            metaDiscountAmount :=
              if jsTruthyQ r.discountAmount then r.discountAmount.getD 0 else 0
            metaCouponCode := jsOrD r.couponCode "none"
            metaHasCoupon := jsTruthy r.couponCode }

/-- HTTP status carried by each booking outcome. -/
def bookingStatus : BookingOutcome → ℕ
  | .created _ => 200
  | .toFixedCrash => 500
  | _ => 400

/-- The machine-readable `code` field of the booking error responses. -/
def bookingErrorCode : BookingOutcome → Option String
  | .freeBooking => some "FREE_BOOKING"
  | _ => none

/-- Number of outbound create-session calls to the payment processor that the
outcome entails. -/
def processorCalls : BookingOutcome → ℕ
  | .created _ => 1
  | _ => 0

/-- The `unit_amount` of the processor call, when one is issued. -/
def unitAmountOf : BookingOutcome → Option ℤ
  | .created c => c.unit_amount
  | _ => none

/-! The currency-aware booking variant (src/unnamed/part_000 lines 27-146). -/

/-- Request body of the currency-aware /create-checkout-session variant. -/
structure BookingRequestCur where
  packageId : Option String := none
  userId : Option String := none
  originalAmount : Option ℚ := none
  amount : Option AmountVal := none
  packageName : Option String := none
  couponCode : Option String := none
  discountAmount : Option ℚ := none
  currency : Option String := none
deriving Repr

/-- The currency decision of part_000 lines 86-101: start from the `'gbp'`
default; when the supplied currency is truthy, lower-case it and accept only
`'usd'`; everything else keeps the default. -/
def normalizeCurrency : Option String → String
  | none => "gbp"
  | some s => if s = "" then "gbp" else if toLowerStr s = "usd" then "usd" else "gbp"

/-- The create-session call of the currency-aware variant; it additionally
stores the decided currency in the session metadata. -/
structure BookingSessionCallCur where
  currency : String
  productName : String
  unit_amount : Option ℤ
  metaOriginalAmount : AmountVal
  metaDiscountAmount : ℚ
  metaCouponCode : String
  metaHasCoupon : Bool
  metaCurrency : String
deriving DecidableEq, Repr

/-- Outcome of the currency-aware booking handler. -/
inductive BookingOutcomeCur where
  | missingUserId
  | missingAmount
  | freeBooking
  | toFixedCrash
  | created (call : BookingSessionCallCur)
deriving DecidableEq, Repr

/-- POST /create-checkout-session, currency-aware variant (src/unnamed/part_000
lines 27-146).  The response also echoes the decided currency. -/
def createCheckoutSessionCur (r : BookingRequestCur) : BookingOutcomeCur :=
  if !(jsTruthy r.userId) then .missingUserId
  else
    match r.amount with
    | none => .missingAmount
    | some a =>
      if a = .num 0 ∨ a = .str "0" then .freeBooking
      else if jsTruthy r.couponCode && jsTruthyQ r.discountAmount
              && r.originalAmount.isNone then .toFixedCrash
      else
        .created {
          currency := normalizeCurrency r.currency
          productName :=
            if jsTruthy r.couponCode then
              jsOrD r.packageName "Kenya Safari Package" ++ " (Coupon: "
                ++ r.couponCode.getD "" ++ ")"
            else jsOrD r.packageName "Kenya Safari Package"
          unit_amount := (amountToNumber a).map (fun q => jsRound (100 * q))
          metaOriginalAmount :=
            if jsTruthyQ r.originalAmount then .num (r.originalAmount.getD 0) else a
          metaDiscountAmount :=
            if jsTruthyQ r.discountAmount then r.discountAmount.getD 0 else 0
          metaCouponCode := jsOrD r.couponCode "none"
          metaHasCoupon := jsTruthy r.couponCode
          metaCurrency := normalizeCurrency r.currency }

/-- The currency sent to the processor by the currency-aware booking handler. -/
def callCurrencyCur : BookingOutcomeCur → Option String
  | .created c => some c.currency
  | _ => none

/-- The currency stored in session metadata by the currency-aware handler. -/
def metaCurrencyCur : BookingOutcomeCur → Option String
  | .created c => some c.metaCurrency
  | _ => none

/-! The tipping endpoints (src/server.js lines 252-495). -/

/-- The flat string metadata attached to a checkout session.  Booking sessions
fill the amount/coupon keys; tip sessions fill the recipient keys and
`type = "tip"`.  `none` means the key is absent (JS `undefined`). -/
structure SessionMetadata where
  userId : Option String := none
  packageId : Option String := none
  packageName : Option String := none
  originalAmount : Option String := none
  discountAmount : Option String := none
  couponCode : Option String := none
  hasCoupon : Option String := none
  recipientType : Option String := none
  recipientId : Option String := none
  recipientName : Option String := none
  userName : Option String := none
  message : Option String := none
  type : Option String := none
deriving DecidableEq, Repr

/-- A checkout-session object as reported by the processor. -/
structure StripeSession where
  id : String
  payment_status : String
  amount_total : ℤ
  payment_intent : String
  currency : String
  customer : Option String := none
  metadata : Option SessionMetadata := none
deriving Repr

/-- A payment-intent object as reported by the processor. -/
structure PaymentIntent where
  id : String
  amount : ℤ
  currency : String
deriving Repr

/-- The processor, viewed as the two lookups the handlers perform; `none`
models a failed retrieve (the SDK throwing). -/
structure StripeClient where
  sessions : String → Option StripeSession
  paymentIntents : String → Option PaymentIntent

/-- A guide document in the Firestore `guides` collection; the collection
itself is the list of documents in storage order. -/
structure GuideDoc where
  gid : String
  fullName : Option String := none
  name : Option String := none
  displayName : Option String := none
  email : Option String := none
deriving DecidableEq, Repr

/-- `db.collection('guides').doc(id).get()`. -/
def findById (db : List GuideDoc) (i : String) : Option GuideDoc :=
  db.find? (fun g => g.gid == i)

/-- Request body of POST /api/tip/create-checkout-session. -/
structure TipRequest where
  amount : Option ℚ := none
  currency : Option String := none
  recipientType : Option String := none
  recipientId : Option String := none
  recipientName : Option String := none
  userId : Option String := none
  userName : Option String := none
  message : Option String := none
deriving Repr

/-- The create-session call issued by the tip handler. -/
structure TipSessionCall where
  currency : String
  productName : String
  description : String
  unit_amount : ℤ
  metadata : SessionMetadata
deriving DecidableEq, Repr

/-- Outcome of the tip create-checkout-session handler. -/
inductive TipCreateOutcome where
  | invalidAmount
  | created (call : TipSessionCall)
deriving DecidableEq, Repr

/-- POST /api/tip/create-checkout-session (src/server.js lines 252-326).
The supplied currency is only lower-cased (`currency.toLowerCase()`), with
the destructuring default `'gbp'` for an absent field; tip metadata stores
the recipient fields plus `type = "tip"`, and no currency key. -/
def createTipCheckoutSession (r : TipRequest) : TipCreateOutcome :=
  match r.amount with
  | none => .invalidAmount
  | some q =>
    if q ≤ 0 then .invalidAmount
    else
      .created {
        currency := toLowerStr (r.currency.getD "gbp")
        productName :=
          if r.recipientType = some "guide" then
            "Tip for " ++ r.recipientName.getD "undefined"
          else "Tip for Kenya on a Budget Safaris"
        description := jsOrD r.message "Thank you for your service!"
        unit_amount := jsRound (100 * q)
        metadata := {
          recipientType := r.recipientType
          recipientId := r.recipientId
          recipientName := r.recipientName
          userId := r.userId
          userName := r.userName
          message := r.message
          type := some "tip" } }

/-- The currency the tip handler sends to the processor, when a session is
created. -/
def tipCallCurrency : TipCreateOutcome → Option String
  | .created c => some c.currency
  | _ => none

/-! POST /verify-payment, the booking verification reconciler
(src/server.js lines 171-218). -/

/-- The value of the `couponCode` property of the JSON response: JS
distinguishes a property holding `null`, a property holding a string, and the
`undefined` value (which `JSON.stringify` omits from the serialized body). -/
inductive JsStrOpt where
  | undefined
  | null
  | str (s : String)
deriving DecidableEq, Repr

/-- Whether the property survives JSON serialization (`JSON.stringify` drops
`undefined`-valued properties and keeps `null`). -/
def serializedKeyPresent : JsStrOpt → Bool
  | .undefined => false
  | _ => true

/-- The paid-branch response body of POST /verify-payment.  `none` in the
amount fields models NaN from `parseFloat` on an unparsable string. -/
structure VerifyPaidResponse where
  amount : ℚ
  originalAmount : Option ℚ
  discountAmount : Option ℚ
  finalAmount : ℚ
  couponCode : JsStrOpt
  customerId : Option String
  metadata : Option SessionMetadata
deriving DecidableEq, Repr

/-- Outcome of POST /verify-payment.  `retrieveError` models the 500 produced
when `stripe.checkout.sessions.retrieve` throws. -/
inductive VerifyOutcome where
  | missingId
  | retrieveError
  | paid (r : VerifyPaidResponse)
  | notPaid (status : String) (metadata : Option SessionMetadata)
deriving DecidableEq, Repr

/-- A document appended to the Firestore `tips` collection. -/
structure TipRecord where
  stripePaymentIntentId : String
  stripeSessionId : String
  amount : ℚ
  currency : String
  recipientType : Option String
  recipientId : Option String
  recipientName : String
  senderId : String
  senderName : String
  message : String
  status : String := "completed"
deriving DecidableEq, Repr

/-- Side effects a handler can perform: append a tip record, send a
transactional email, or append an email-notification log document. -/
inductive Effect where
  | addTip (t : TipRecord)
  | sendEmail (addr subject : String)
  | addEmailLog (addr : String)
deriving DecidableEq, Repr

/-- POST /verify-payment (src/server.js lines 171-218).  The booking verifier
performs no writes on any path, so its effect list is always empty; it is kept
in the result type to state that fact. -/
def verifyPayment (st : StripeClient) (sessionId : Option String) :
    VerifyOutcome × List Effect :=
  if !(jsTruthy sessionId) then (.missingId, [])
  else
    match st.sessions (sessionId.getD "") with
    | none => (.retrieveError, [])
    | some s =>
      if s.payment_status = "paid" then
        let md := s.metadata.getD {}
        let originalAmount : Option ℚ :=
          if jsTruthy md.originalAmount then parseFloatQ (md.originalAmount.getD "")
          else some ((s.amount_total : ℚ) / 100)
        let discountAmount : Option ℚ :=
          if jsTruthy md.discountAmount then parseFloatQ (md.discountAmount.getD "")
          else some 0
        let finalAmount : ℚ := (s.amount_total : ℚ) / 100
        let coupon : JsStrOpt :=
          match md.couponCode with
          | none => .undefined
          | some c => if c = "none" then .null else .str c
        (.paid {
          amount := finalAmount
          originalAmount := originalAmount
          discountAmount := discountAmount
          finalAmount := finalAmount
          couponCode := coupon
          customerId := s.customer
          metadata := s.metadata }, [])
      else (.notPaid s.payment_status s.metadata, [])

/-- The `couponCode` property of the /verify-payment response, on the paid
branch. -/
def couponCodeOf : VerifyOutcome → Option JsStrOpt
  | .paid r => some r.couponCode
  | _ => none

/-- The `paid` property of the /verify-payment response body. -/
def verifyPaidField : VerifyOutcome → Option Bool
  | .paid _ => some true
  | .notPaid _ _ => some false
  | _ => none

/-- The `status` property of the /verify-payment response body. -/
def verifyStatusField : VerifyOutcome → Option String
  | .notPaid st _ => some st
  | _ => none

/-! Notification dispatch (src/server.js lines 504-632). -/

/-- The `ADMIN_EMAIL` environment value, abstracted as an opaque address. -/
def adminEmail : String := "ADMIN_EMAIL"

/-- `sendGuideNotification` (src/server.js lines 504-561): look the guide up
by id; silently return when the guide or its email is missing; otherwise send
the guide email, the admin copy (`sendAdminGuideNotification`), and append the
email log document. -/
def sendGuideNotification (guides : List GuideDoc) (guideId : String) :
    List Effect :=
  match findById guides guideId with
  | none => []
  | some g =>
    if jsTruthy g.email then
      [.sendEmail (g.email.getD "") "You Received a Tip!",
       .sendEmail adminEmail "Guide Tip Alert",
       .addEmailLog (g.email.getD "")]
    else []

/-- `sendCompanyNotification` (src/server.js lines 596-632): email the admin
address and append the email log document. -/
def sendCompanyNotification : List Effect :=
  [.sendEmail adminEmail "Company Tip Received", .addEmailLog adminEmail]

/-! GET /api/tip/verify-checkout-session (src/server.js lines 331-411). -/

/-- The payment summary returned on the success branch of the tip verifier. -/
structure TipPaymentSummary where
  amount : ℚ
  recipientType : Option String
  recipientId : Option String
  recipientName : String
  status : String := "completed"
deriving DecidableEq, Repr

/-- Outcome of GET /api/tip/verify-checkout-session.  `notComplete` is the
`{success:false, error:'Payment not complete'}` body, which carries neither a
`paid` nor a `status` property. -/
inductive TipVerifyOutcome where
  | missingId
  | serverError
  | ok (payment : TipPaymentSummary)
  | notComplete
deriving DecidableEq, Repr

/-- The `status` property reachable in a tip-verifier response body (only the
success branch nests one, inside `payment`). -/
def tipRespStatusField : TipVerifyOutcome → Option String
  | .ok p => some p.status
  | _ => none

/-- The `paid` property of a tip-verifier response body: the tip endpoints
use `success`, so no branch ever carries a `paid` key. -/
def tipRespPaidField : TipVerifyOutcome → Option Bool
  | _ => none

/-- The recipient-name fallback of the tip verifier and webhook
(src/server.js lines 353-359): start from
`recipientName || 'Kenya on a Budget Safaris'` and, for a guide tip with an
id but no supplied name, use the guide document's `fullName || 'Guide'`. -/
def resolveRecipientName (guides : List GuideDoc) (md : SessionMetadata) :
    String :=
  let base := jsOrD md.recipientName "Kenya on a Budget Safaris"
  if md.recipientType = some "guide" && jsTruthy md.recipientId
      && !(jsTruthy md.recipientName) then
    match findById guides (md.recipientId.getD "") with
    | some g => jsOrD g.fullName "Guide"
    | none => base
  else base

/-- The tip record written by the verifier and the webhook for a paid tip
session. -/
def mkTipRecord (pi : PaymentIntent) (sid : String) (md : SessionMetadata)
    (recipientName : String) : TipRecord :=
  { stripePaymentIntentId := pi.id
    stripeSessionId := sid
    amount := (pi.amount : ℚ) / 100
    currency := pi.currency
    recipientType := md.recipientType
    recipientId := md.recipientId
    recipientName := recipientName
    senderId := jsOrD md.userId "anonymous"
    senderName := jsOrD md.userName "Anonymous"
    message := jsOrD md.message "" }

/-- GET /api/tip/verify-checkout-session (src/server.js lines 331-411): on a
paid session, retrieve the payment intent, resolve the recipient name, append
one tip record, dispatch the notification for the recipient type, and return
the payment summary; on any other payment status, return the
`Payment not complete` body with no side effects. -/
def tipVerifyCheckoutSession (st : StripeClient) (guides : List GuideDoc)
    (session_id : Option String) : TipVerifyOutcome × List Effect :=
  if !(jsTruthy session_id) then (.missingId, [])
  else
    match st.sessions (session_id.getD "") with
    | none => (.serverError, [])
    | some s =>
      if s.payment_status = "paid" then
        match st.paymentIntents s.payment_intent with
        | none => (.serverError, [])
        | some pi =>
          let md := s.metadata.getD {}
          let amount : ℚ := (pi.amount : ℚ) / 100
          let finalName := resolveRecipientName guides md
          let record := mkTipRecord pi (session_id.getD "") md finalName
          let notify :=
            if md.recipientType = some "guide" && jsTruthy md.recipientId then
              sendGuideNotification guides (md.recipientId.getD "")
            else sendCompanyNotification
          (.ok {
            amount := amount
            recipientType := md.recipientType
            recipientId := md.recipientId
            recipientName := finalName }, .addTip record :: notify)
      else (.notComplete, [])

/-! POST /api/tip/webhook (src/server.js lines 416-495). -/

/-- A constructed (signature-verified) Stripe event. -/
structure StripeEvent where
  type : String
  obj : StripeSession
deriving Repr

/-- Outcome of the webhook handler: a 400 on signature failure, otherwise the
`{received:true}` acknowledgement. -/
inductive WebhookOutcome where
  | badSignature (msg : String)
  | received
deriving DecidableEq, Repr

/-- HTTP status of a webhook outcome. -/
def webhookStatus : WebhookOutcome → ℕ
  | .badSignature _ => 400
  | .received => 200

/-- POST /api/tip/webhook (src/server.js lines 416-495).  The result of
`stripe.webhooks.constructEvent` is passed in as an `Except`: the SDK throws
exactly when the payload signature does not verify, and the handler returns
400 before looking at the event.  A verified `checkout.session.completed`
event for a paid tip session replays the same persist-and-notify sequence as
the synchronous verifier; internal processing errors are swallowed and the
event is acknowledged regardless. -/
def tipWebhook (st : StripeClient) (guides : List GuideDoc)
    (constructed : Except String StripeEvent) : WebhookOutcome × List Effect :=
  match constructed with
  | .error msg => (.badSignature msg, [])
  | .ok ev =>
    if ev.type = "checkout.session.completed" then
      let s := ev.obj
      match s.metadata with
      | none => (.received, [])
      | some md =>
        if md.type = some "tip" then
          if s.payment_status = "paid" then
            match st.paymentIntents s.payment_intent with
            | none => (.received, [])
            | some pi =>
              let finalName := resolveRecipientName guides md
              let record := mkTipRecord pi s.id md finalName
              let notify :=
                if md.recipientType = some "guide" && jsTruthy md.recipientId then
                  sendGuideNotification guides (md.recipientId.getD "")
                else sendCompanyNotification
              (.received, .addTip record :: notify)
          else (.received, [])
        else (.received, [])
    else (.received, [])

/-! Guide identity resolution, `getGuideInfo`
(src/unnamed/part_002 lines 756-848). -/

/-- The ordered candidate name fields inspected by `getGuideInfo`. -/
inductive NameField where
  | fullName
  | name
  | displayName
deriving DecidableEq, Repr

/-- Read a candidate name field off a guide document. -/
def fieldGet (g : GuideDoc) : NameField → Option String
  | .fullName => g.fullName
  | .name => g.name
  | .displayName => g.displayName

/-- `const nameFields = ['fullName', 'name', 'displayName']`. -/
def nameFields : List NameField :=
  [.fullName, .name, .displayName]

/-- The exact-match stage: for each candidate field in order, run the
`where(field, '==', guideName).limit(1)` query and return its first hit. -/
def exactMatch (db : List GuideDoc) (n : String) : Option GuideDoc :=
  nameFields.findSome? (fun f => db.find? (fun g => fieldGet g f == some n))

/-- Whether a document matches the case-insensitive scan: some candidate
field holds a truthy string equal to the searched name modulo case. -/
def ciFieldMatch (n : String) (g : GuideDoc) : Bool :=
  nameFields.any (fun f =>
    match fieldGet g f with
    | some v => v != "" && toLowerStr v == toLowerStr n
    | none => false)

/-- The case-insensitive stage: fetch the collection with `limit(50)` and scan
the fetched documents in order. -/
def ciScan (db : List GuideDoc) (n : String) : Option GuideDoc :=
  (db.take 50).find? (ciFieldMatch n)

/-- The result shape of `getGuideInfo`.  The `exists` property of the source
is `guideExists` here; `name` is an optional string because the found-branch
`fullName || name || guideName` chain can itself produce `undefined`. -/
structure GuideInfo where
  id : Option String := none
  name : Option String := none
  email : Option String := none
  guideExists : Bool
deriving DecidableEq, Repr

/-- The found-guide result: `name` is
`guideData.fullName || guideData.name || guideName`. -/
def mkFoundInfo (oid : Option String) (g : GuideDoc) (gname : Option String) :
    GuideInfo :=
  { id := oid
    name := jsOrS g.fullName (jsOrS g.name gname)
    email := g.email
    guideExists := true }

/-- `getGuideInfo(guideId, guideName)` (src/unnamed/part_002 lines 756-848):
direct lookup by id when the id is truthy; then, when the name is truthy, the
exact-match queries over the ordered candidate fields; then the
case-insensitive scan over at most 50 fetched documents; and finally the
non-existent fallback carrying `guideName || 'Unknown Guide'`. -/
def getGuideInfo (db : List GuideDoc) (guideId guideName : Option String) :
    GuideInfo :=
  let byId : Option GuideInfo :=
    if jsTruthy guideId then
      match findById db (guideId.getD "") with
      | some g => some (mkFoundInfo guideId g guideName)
      | none => none
    else none
  match byId with
  | some r => r
  | none =>
    let byName : Option GuideInfo :=
      if jsTruthy guideName then
        let n := guideName.getD ""
        match exactMatch db n with
        | some g => some (mkFoundInfo (some g.gid) g guideName)
        | none => (ciScan db n).map (fun g => mkFoundInfo (some g.gid) g guideName)
      else none
    match byName with
    | some r => r
    | none =>
      { id := none
        name := jsOrS guideName (some "Unknown Guide")
        email := none
        guideExists := false }

/-- Whether the direct-id stage of `getGuideInfo` hits: a truthy id whose
document exists. -/
def idStageHits (db : List GuideDoc) (guideId : Option String) : Bool :=
  jsTruthy guideId && (findById db (guideId.getD "")).isSome

/-! Concrete scenario data used by the counterexamples and witnesses. -/

/-- A free booking: valid user, amount exactly zero. -/
def reqFree : BookingRequest :=
  { userId := some "u1", amount := some (.num 0) }

/-- A coupon booking with a discount but no `originalAmount`. -/
def reqCouponNoOriginal : BookingRequest :=
  { userId := some "u1", amount := some (.num 50),
    couponCode := some "SAVE10", discountAmount := some 10 }

/-- A coupon-free booking of 49.99 currency units. -/
def reqC8 : BookingRequest :=
  { userId := some "u1", amount := some (.num (4999 / 100)) }

/-- A tip request carrying the unrecognized currency code `"EUR"`. -/
def tipReqEUR : TipRequest :=
  { amount := some 5, currency := some "EUR" }

/-- A tip request carrying the unrecognized currency code `"JPY"`. -/
def tipReqJPY : TipRequest :=
  { amount := some 5, currency := some "JPY" }

/-- A currency-aware booking request asking for USD. -/
def reqUSDcur : BookingRequestCur :=
  { userId := some "u1", amount := some (.num 10), currency := some "USD" }

/-- Metadata of a paid package session whose coupon sentinel is `'none'`. -/
def mdCouponNone : SessionMetadata :=
  { originalAmount := some "100", discountAmount := some "0",
    couponCode := some "none" }

/-- A paid package session carrying `mdCouponNone`. -/
def sessCouponNone : StripeSession :=
  { id := "cs_c5", payment_status := "paid", amount_total := 10000,
    payment_intent := "pi_c5", currency := "gbp",
    metadata := some mdCouponNone }

/-- A processor view exposing only `sessCouponNone`. -/
def stripeC5 : StripeClient :=
  { sessions := fun sid => if sid = "cs_c5" then some sessCouponNone else none
    paymentIntents := fun _ => none }

/-- Metadata of a paid package session that lacks the couponCode key. -/
def mdNoCouponKey : SessionMetadata :=
  { originalAmount := some "80", discountAmount := some "0" }

/-- A paid package session carrying `mdNoCouponKey`. -/
def sessNoCouponKey : StripeSession :=
  { id := "cs_c10", payment_status := "paid", amount_total := 8000,
    payment_intent := "pi_c10", currency := "gbp",
    metadata := some mdNoCouponKey }

/-- A processor view exposing only `sessNoCouponKey`. -/
def stripeC10 : StripeClient :=
  { sessions := fun sid => if sid = "cs_c10" then some sessNoCouponKey else none
    paymentIntents := fun _ => none }

/-- An unpaid session. -/
def sessUnpaid : StripeSession :=
  { id := "cs_u", payment_status := "unpaid", amount_total := 0,
    payment_intent := "pi_u", currency := "gbp" }

/-- A processor view exposing only `sessUnpaid`. -/
def stripeUnpaid : StripeClient :=
  { sessions := fun sid => if sid = "cs_u" then some sessUnpaid else none
    paymentIntents := fun _ => none }

/-- Metadata of a paid company-tip session. -/
def mdCompanyTip : SessionMetadata :=
  { userId := some "u9", userName := some "Uma", message := some "thanks",
    recipientType := some "company", type := some "tip" }

/-- A paid tip session for the company pool. -/
def sessTipPaid : StripeSession :=
  { id := "cs_tip1", payment_status := "paid", amount_total := 1000,
    payment_intent := "pi_tip1", currency := "gbp",
    metadata := some mdCompanyTip }

/-- A processor view exposing `sessTipPaid` and its payment intent. -/
def stripeTip : StripeClient :=
  { sessions := fun sid => if sid = "cs_tip1" then some sessTipPaid else none
    paymentIntents := fun p =>
      if p = "pi_tip1" then some ⟨"pi_tip1", 1000, "gbp"⟩ else none }

/-- Number of tip records appended for a given payment-intent id. -/
def countTipRecords (pid : String) (l : List Effect) : ℕ :=
  (l.filter (fun e =>
    match e with
    | .addTip t => t.stripePaymentIntentId == pid
    | _ => false)).length

/-- Number of notification emails dispatched. -/
def countEmailDispatches (l : List Effect) : ℕ :=
  (l.filter (fun e =>
    match e with
    | .sendEmail _ _ => true
    | _ => false)).length

/-- The effects of observing the same paid tip session twice: once through the
synchronous GET verifier and once through the webhook. -/
def doubleObservationEffects : List Effect :=
  (tipVerifyCheckoutSession stripeTip [] (some "cs_tip1")).2
    ++ (tipWebhook stripeTip [] (.ok ⟨"checkout.session.completed", sessTipPaid⟩)).2

end Shopp

namespace Shopp

/-- C2: a booking checkout request that passes the userId and amount-presence
checks and whose amount is the number 0 or the string "0" is rejected with a
400 carrying the code FREE_BOOKING, and no create-session call reaches the
payment processor. -/
theorem free_booking_rejected (r : BookingRequest)
    (h1 : jsTruthy r.userId = true)
    (h2 : r.amount = some (.num 0) ∨ r.amount = some (.str "0")) :
    createCheckoutSession r = .freeBooking
    ∧ bookingStatus (createCheckoutSession r) = 400
    ∧ bookingErrorCode (createCheckoutSession r) = some "FREE_BOOKING"
    ∧ processorCalls (createCheckoutSession r) = 0 := by
  have hc : createCheckoutSession r = .freeBooking := by
    rcases h2 with h | h <;> simp [createCheckoutSession, h1, h]
  exact ⟨hc, by rw [hc]; rfl, by rw [hc]; rfl, by rw [hc]; rfl⟩

/-- Witness for C2 at the concrete free booking `reqFree`. -/
theorem free_booking_rejected_witness :
    createCheckoutSession reqFree = .freeBooking
    ∧ bookingStatus (createCheckoutSession reqFree) = 400
    ∧ bookingErrorCode (createCheckoutSession reqFree) = some "FREE_BOOKING"
    ∧ processorCalls (createCheckoutSession reqFree) = 0 :=
  free_booking_rejected reqFree rfl (Or.inl rfl)

/-- C4 (code bug): a booking request with a coupon code and a discount amount
but no originalAmount makes the description builder call `toFixed` on an
absent value; the TypeError aborts the request into the catch-all 500 instead
of a validation error or a created session. -/
theorem coupon_without_original_crashes :
    createCheckoutSession reqCouponNoOriginal = .toFixedCrash
    ∧ bookingStatus (createCheckoutSession reqCouponNoOriginal) = 500
    ∧ processorCalls (createCheckoutSession reqCouponNoOriginal) = 0 := by
  decide

/-- C7: a webhook delivery whose signature does not verify (the SDK's
constructEvent throws) is answered with a 400 and produces no persistence or
notification effect; the event body is never branched on. -/
theorem webhook_invalid_signature_rejected (st : StripeClient)
    (guides : List GuideDoc) (msg : String) :
    tipWebhook st guides (.error msg) = (.badSignature msg, [])
    ∧ webhookStatus (tipWebhook st guides (.error msg)).1 = 400 :=
  ⟨rfl, rfl⟩

/-- C5: on a paid session whose metadata stores the sentinel string `'none'`
for couponCode, the /verify-payment reconciler returns couponCode null, never
the literal string `'none'`. -/
theorem coupon_none_reconciled_to_null (st : StripeClient) (sid : String)
    (s : StripeSession)
    (h1 : sid ≠ "")
    (h2 : st.sessions sid = some s)
    (h3 : s.payment_status = "paid")
    (h4 : (s.metadata.getD {}).couponCode = some "none") :
    couponCodeOf (verifyPayment st (some sid)).1 = some .null
    ∧ couponCodeOf (verifyPayment st (some sid)).1 ≠ some (.str "none") := by
  simp [verifyPayment, jsTruthy, h1, h2, h3, h4, couponCodeOf]

/-- Witness for C5 at the concrete paid session `sessCouponNone`. -/
theorem coupon_none_reconciled_to_null_witness :
    couponCodeOf (verifyPayment stripeC5 (some "cs_c5")).1 = some .null
    ∧ couponCodeOf (verifyPayment stripeC5 (some "cs_c5")).1 ≠ some (.str "none") :=
  coupon_none_reconciled_to_null stripeC5 "cs_c5" sessCouponNone
    (by decide) rfl rfl rfl

/-- C10: on a paid session whose metadata lacks the couponCode key entirely,
the reconciler's `!== 'none'` test passes the undefined value through, so the
response's couponCode is undefined — omitted by JSON serialization — and not
the null the PaymentOutcome shape promises. -/
theorem absent_coupon_key_yields_undefined (st : StripeClient) (sid : String)
    (s : StripeSession)
    (h1 : sid ≠ "")
    (h2 : st.sessions sid = some s)
    (h3 : s.payment_status = "paid")
    (h4 : (s.metadata.getD {}).couponCode = none) :
    couponCodeOf (verifyPayment st (some sid)).1 = some .undefined
    ∧ serializedKeyPresent .undefined = false
    ∧ couponCodeOf (verifyPayment st (some sid)).1 ≠ some .null := by
  simp [verifyPayment, jsTruthy, h1, h2, h3, h4, couponCodeOf, serializedKeyPresent]

/-- Witness for C10 at the concrete paid session `sessNoCouponKey`. -/
theorem absent_coupon_key_yields_undefined_witness :
    couponCodeOf (verifyPayment stripeC10 (some "cs_c10")).1 = some .undefined
    ∧ serializedKeyPresent .undefined = false
    ∧ couponCodeOf (verifyPayment stripeC10 (some "cs_c10")).1 ≠ some .null :=
  absent_coupon_key_yields_undefined stripeC10 "cs_c10" sessNoCouponKey
    (by decide) rfl rfl rfl

/-- C1 (code bug): observing the same paid tip session twice — once through
the synchronous GET verifier and once through the webhook — appends two tip
records and dispatches two notification emails for the same payment-intent
id; the source has no idempotency guard. -/
theorem double_observation_duplicates_records :
    countTipRecords "pi_tip1" doubleObservationEffects = 2
    ∧ countEmailDispatches doubleObservationEffects = 2 := by
  decide

/-- C6 counterexample: on the concrete unpaid session `sessUnpaid`, the tip
verification handler answers `{success:false, error:'Payment not complete'}`,
a body that carries neither a `paid:false` property nor the raw
payment status the claim requires of every verification handler. -/
theorem tip_unpaid_response_lacks_status :
    (tipVerifyCheckoutSession stripeUnpaid [] (some "cs_u")).1 = .notComplete
    ∧ tipRespStatusField
        (tipVerifyCheckoutSession stripeUnpaid [] (some "cs_u")).1 ≠ some "unpaid"
    ∧ tipRespPaidField
        (tipVerifyCheckoutSession stripeUnpaid [] (some "cs_u")).1 ≠ some false := by
  decide

/-- C6 (amended): on any session whose payment status is not `paid`, the
booking verifier returns `{paid:false, status:<raw status>}` and the tip
verifier returns the `Payment not complete` body; neither performs any
persistence write or notification dispatch. -/
theorem unpaid_verification_no_side_effects (st : StripeClient)
    (guides : List GuideDoc) (sid : String) (s : StripeSession)
    (h1 : sid ≠ "")
    (h2 : st.sessions sid = some s)
    (h3 : s.payment_status ≠ "paid") :
    verifyPayment st (some sid) = (.notPaid s.payment_status s.metadata, [])
    ∧ verifyPaidField (verifyPayment st (some sid)).1 = some false
    ∧ verifyStatusField (verifyPayment st (some sid)).1 = some s.payment_status
    ∧ tipVerifyCheckoutSession st guides (some sid) = (.notComplete, []) := by
  have hv : verifyPayment st (some sid) = (.notPaid s.payment_status s.metadata, []) := by
    simp [verifyPayment, jsTruthy, h1, h2, h3]
  have ht : tipVerifyCheckoutSession st guides (some sid) = (.notComplete, []) := by
    simp [tipVerifyCheckoutSession, jsTruthy, h1, h2, h3]
  exact ⟨hv, by rw [hv]; rfl, by rw [hv]; rfl, ht⟩

/-- Witness for the amended C6 at the concrete unpaid session `sessUnpaid`. -/
theorem unpaid_verification_no_side_effects_witness :
    verifyPayment stripeUnpaid (some "cs_u")
        = (.notPaid sessUnpaid.payment_status sessUnpaid.metadata, [])
    ∧ verifyPaidField (verifyPayment stripeUnpaid (some "cs_u")).1 = some false
    ∧ verifyStatusField (verifyPayment stripeUnpaid (some "cs_u")).1
        = some sessUnpaid.payment_status
    ∧ tipVerifyCheckoutSession stripeUnpaid [] (some "cs_u") = (.notComplete, []) :=
  unpaid_verification_no_side_effects stripeUnpaid [] "cs_u" sessUnpaid
    (by decide) rfl (by decide)

/-- C3 counterexample: the tip checkout handler sends the unrecognized
currency `"EUR"` to the processor as `"eur"`, instead of resolving it to the
fallback `"gbp"` as the claim requires of every checkout path. -/
theorem tip_unrecognized_currency_not_fallback :
    tipCallCurrency (createTipCheckoutSession tipReqEUR) = some "eur"
    ∧ tipCallCurrency (createTipCheckoutSession tipReqEUR) ≠ some "gbp"
    ∧ tipCallCurrency (createTipCheckoutSession tipReqEUR) ≠ some "usd" := by
  decide

/-- C3 (amended): the currency-aware booking handler lower-cases the supplied
code, recognizes gbp and usd, resolves anything unrecognized or absent to the
fallback gbp, is idempotent, and sends and stores the normalized value; the
tip handler instead only lower-cases the supplied code (defaulting an absent
one to gbp) and passes unrecognized codes through lower-cased. -/
theorem currency_normalization (c : Option String) (rb : BookingRequestCur)
    (rt : TipRequest) :
    normalizeCurrency (some (normalizeCurrency c)) = normalizeCurrency c
    ∧ normalizeCurrency (some "gbp") = "gbp"
    ∧ normalizeCurrency (some "usd") = "usd"
    ∧ normalizeCurrency none = "gbp"
    ∧ (∀ s : String, toLowerStr s ≠ "usd" → normalizeCurrency (some s) = "gbp")
    ∧ (∀ call, createCheckoutSessionCur rb = .created call →
        callCurrencyCur (createCheckoutSessionCur rb)
            = some (normalizeCurrency rb.currency)
        ∧ metaCurrencyCur (createCheckoutSessionCur rb)
            = some (normalizeCurrency rb.currency))
    ∧ (∀ call, createTipCheckoutSession rt = .created call →
        tipCallCurrency (createTipCheckoutSession rt)
            = some (toLowerStr (rt.currency.getD "gbp"))) := by
  refine ⟨?_, by decide, by decide, rfl, ?_, ?_, ?_⟩
  · cases c with
    | none => decide
    | some s =>
      by_cases h1 : s = ""
      · subst h1; decide
      · by_cases h2 : toLowerStr s = "usd"
        · have e1 : normalizeCurrency (some s) = "usd" := by
            simp [normalizeCurrency, h1, h2]
          rw [e1]; decide
        · have e1 : normalizeCurrency (some s) = "gbp" := by
            simp [normalizeCurrency, h1, h2]
          rw [e1]; decide
  · intro s hs
    by_cases h1 : s = ""
    · subst h1; decide
    · simp [normalizeCurrency, h1, hs]
  · intro call hc
    rw [hc]
    unfold createCheckoutSessionCur at hc
    split at hc
    · cases hc
    · split at hc
      · cases hc
      · split at hc
        · cases hc
        · split at hc
          · cases hc
          · injection hc with h
            rw [← h]
            exact ⟨rfl, rfl⟩
  · intro call hc
    rw [hc]
    unfold createTipCheckoutSession at hc
    split at hc
    · cases hc
    · split at hc
      · cases hc
      · injection hc with h
        rw [← h]
        rfl

/-- Witness for the amended C3 at the concrete requests `reqUSDcur` (booking,
USD) and `tipReqJPY` (tip, unrecognized JPY). -/
theorem currency_normalization_witness :
    normalizeCurrency (some (normalizeCurrency (some "EUR")))
        = normalizeCurrency (some "EUR")
    ∧ normalizeCurrency (some "eUr") = "gbp"
    ∧ (callCurrencyCur (createCheckoutSessionCur reqUSDcur)
          = some (normalizeCurrency reqUSDcur.currency)
        ∧ metaCurrencyCur (createCheckoutSessionCur reqUSDcur)
          = some (normalizeCurrency reqUSDcur.currency))
    ∧ tipCallCurrency (createTipCheckoutSession tipReqJPY)
        = some (toLowerStr (tipReqJPY.currency.getD "gbp")) := by
  obtain ⟨h1, -, -, -, h5, h6, h7⟩ :=
    currency_normalization (some "EUR") reqUSDcur tipReqJPY
  exact ⟨h1, h5 "eUr" (by decide), h6 _ rfl, h7 _ rfl⟩

/-- Rounding half up lands within half a unit of the exact product. -/
theorem jsRound_close (x : ℚ) : |(jsRound x : ℚ) - x| ≤ 1 / 2 := by
  have h1 : (jsRound x : ℚ) ≤ x + 1 / 2 := Int.floor_le _
  have h2 : x + 1 / 2 - 1 < (jsRound x : ℚ) := Int.sub_one_lt_floor _
  rw [abs_le]
  constructor <;> linarith

/-- C8: every valid booking request with a positive numeric amount produces
exactly one processor call whose minor-unit amount is `round(amount * 100)`,
and dividing that minor-unit amount by 100 reproduces the requested major
amount to within half a minor unit. -/
theorem minor_unit_conversion (r : BookingRequest) (a : ℚ)
    (h1 : jsTruthy r.userId = true)
    (h2 : r.amount = some (.num a))
    (h3 : 0 < a)
    (h4 : (jsTruthy r.couponCode && jsTruthyQ r.discountAmount
            && r.originalAmount.isNone) = false) :
    unitAmountOf (createCheckoutSession r) = some (jsRound (100 * a))
    ∧ processorCalls (createCheckoutSession r) = 1
    ∧ |(jsRound (100 * a) : ℚ) / 100 - a| ≤ 1 / 200 := by
  have ha : a ≠ 0 := h3.ne'
  have hbound : |(jsRound (100 * a) : ℚ) / 100 - a| ≤ 1 / 200 := by
    have hb := jsRound_close (100 * a)
    rw [abs_le] at hb ⊢
    have he : (jsRound (100 * a) : ℚ) / 100 - a
        = ((jsRound (100 * a) : ℚ) - 100 * a) / 100 := by ring
    rw [he]
    constructor <;> linarith [hb.1, hb.2]
  refine ⟨?_, ?_, hbound⟩ <;>
  · by_cases hcd : (jsTruthy r.couponCode && jsTruthyQ r.discountAmount) = true
    · have ho : r.originalAmount.isNone = false := by
        rcases h : r.originalAmount.isNone with _ | _
        · rfl
        · rw [hcd, h] at h4; cases h4
      obtain ⟨oq, hoq⟩ : ∃ q, r.originalAmount = some q := by
        cases ho' : r.originalAmount with
        | none => rw [ho'] at ho; cases ho
        | some q => exact ⟨q, rfl⟩
      simp [createCheckoutSession, h1, h2, ha, hcd, hoq, unitAmountOf,
        processorCalls, amountToNumber]
    · have hcd' : (jsTruthy r.couponCode && jsTruthyQ r.discountAmount) = false := by
        rcases h : jsTruthy r.couponCode && jsTruthyQ r.discountAmount with _ | _
        · rfl
        · exact absurd h hcd
      simp [createCheckoutSession, h1, h2, ha, hcd', unitAmountOf,
        processorCalls, amountToNumber]

/-- Witness for C8 at the concrete booking `reqC8` (amount 49.99). -/
theorem minor_unit_conversion_witness :
    unitAmountOf (createCheckoutSession reqC8) = some (jsRound (100 * (4999 / 100 : ℚ)))
    ∧ processorCalls (createCheckoutSession reqC8) = 1
    ∧ |(jsRound (100 * (4999 / 100 : ℚ)) : ℚ) / 100 - (4999 / 100 : ℚ)| ≤ 1 / 200 :=
  minor_unit_conversion reqC8 (4999 / 100) rfl rfl (by norm_num) rfl

/-- C9: guide identity resolution tries, in order, the direct lookup by id,
the exact match over the candidate fields fullName/name/displayName, and the
case-insensitive scan over at most 50 fetched documents; when every stage
misses it returns a non-existent result carrying only the supplied name. -/
theorem guide_resolution_stages (db : List GuideDoc) (gid gname : Option String) :
    (∀ i g, gid = some i → i ≠ "" → findById db i = some g →
        getGuideInfo db gid gname = mkFoundInfo gid g gname)
    ∧ (∀ n g, idStageHits db gid = false → gname = some n → n ≠ "" →
        exactMatch db n = some g →
        getGuideInfo db gid gname = mkFoundInfo (some g.gid) g gname)
    ∧ (∀ n g, idStageHits db gid = false → gname = some n → n ≠ "" →
        exactMatch db n = none → ciScan db n = some g →
        getGuideInfo db gid gname = mkFoundInfo (some g.gid) g gname)
    ∧ (∀ n, ciScan db n = ciScan (db.take 50) n)
    ∧ (∀ n, idStageHits db gid = false → gname = some n → n ≠ "" →
        exactMatch db n = none → ciScan db n = none →
        getGuideInfo db gid gname
          = { id := none, name := some n, email := none, guideExists := false }) := by
  have hbyIdNone : ∀ (h : idStageHits db gid = false),
      (if jsTruthy gid then
        match findById db (gid.getD "") with
        | some g => some (mkFoundInfo gid g gname)
        | none => none
      else none) = (none : Option GuideInfo) := by
    intro h
    cases hjt : jsTruthy gid with
    | false => simp [hjt]
    | true =>
      have hne : (findById db (gid.getD "")).isSome = false := by
        simpa [idStageHits, hjt] using h
      cases hf : findById db (gid.getD "") with
      | none => simp [hjt, hf]
      | some g => rw [hf] at hne; cases hne
  refine ⟨?_, ?_, ?_, ?_, ?_⟩
  · intro i g hgid hi hfind
    subst hgid
    simp [getGuideInfo, jsTruthy, hi, hfind]
  · intro n g hid hg hn he
    subst hg
    unfold getGuideInfo
    rw [hbyIdNone hid]
    simp [jsTruthy, hn, he]
  · intro n g hid hg hn he hci
    subst hg
    unfold getGuideInfo
    rw [hbyIdNone hid]
    simp [jsTruthy, hn, he, hci]
  · intro n
    unfold ciScan
    rw [List.take_take]
    norm_num
  · intro n hid hg hn he hci
    subst hg
    unfold getGuideInfo
    rw [hbyIdNone hid]
    simp [jsTruthy, hn, he, hci, jsOrS]

/-- A two-document guide collection for the C9 witness. -/
def demoGuides : List GuideDoc :=
  [{ gid := "g1", fullName := some "Alice Mwangi", email := some "alice@example.com" },
   { gid := "g2", name := some "Bob", displayName := some "Bobby" }]

/-- Witness for C9 on `demoGuides`: the id stage, the case-insensitive stage,
the 50-document cap, and the non-existent fallback, each at concrete
arguments. -/
theorem guide_resolution_stages_witness :
    getGuideInfo demoGuides (some "g1") none
        = mkFoundInfo (some "g1") (demoGuides.get ⟨0, by decide⟩) none
    ∧ getGuideInfo demoGuides none (some "BOBBY")
        = mkFoundInfo (some "g2") (demoGuides.get ⟨1, by decide⟩) (some "BOBBY")
    ∧ ciScan demoGuides "bobby" = ciScan (demoGuides.take 50) "bobby"
    ∧ getGuideInfo demoGuides none (some "Zed")
        = { id := none, name := some "Zed", email := none, guideExists := false } := by
  obtain ⟨h1, -, -, h4, -⟩ := guide_resolution_stages demoGuides (some "g1") none
  obtain ⟨-, -, h3b, -, -⟩ := guide_resolution_stages demoGuides none (some "BOBBY")
  obtain ⟨-, -, -, -, h5b⟩ := guide_resolution_stages demoGuides none (some "Zed")
  exact ⟨h1 "g1" (demoGuides.get ⟨0, by decide⟩) rfl (by decide) (by decide),
         h3b "BOBBY" (demoGuides.get ⟨1, by decide⟩) (by decide) rfl (by decide)
           (by decide) (by decide),
         h4 "bobby",
         h5b "Zed" (by decide) rfl (by decide) (by decide) (by decide)⟩

end Shopp
